import Mathlib

/-!
Shallow embedding of the two arcade-game components of the Space_Exploration
repository (`src/pages/games/SpaceJump.tsx` and the SpaceRace component), with
theorems checking the specification's claims about them.

JavaScript numbers are modelled by `ℚ` (all arithmetic appearing in the games
is field arithmetic on exactly representable values), wall-clock timestamps by
`Int`/`Nat`, and the mutable React refs by explicit state records threaded
through the per-frame functions.  `Math.random()` draws are passed in as
explicit parameters.
-/

namespace SpaceExp

/-- One canvas drawing primitive, as issued by the games' render passes.
Pure style settings (`fillStyle`, fonts, shadows, `globalAlpha`) change no
geometry and are not recorded. -/
inductive DrawOp where
  | clearRect (x y w h : ℚ)
  | fillRect (x y w h : ℚ)
  | fillText (text : String) (x y : ℚ)
  | arc (x y radius : ℚ)
deriving DecidableEq

namespace SpaceJump

/-- `interface GameObject` of SpaceJump.tsx. -/
structure GameObject where
  x : ℚ
  y : ℚ
  size : ℚ
  speed : ℚ
deriving DecidableEq

/-- `interface Enemy extends GameObject` (fields flattened). -/
structure Enemy where
  x : ℚ
  y : ℚ
  size : ℚ
  speed : ℚ
  health : Int
  lastShotTime : Int
deriving DecidableEq

/-- An `Enemy` viewed as the `GameObject` it structurally is when passed to
`checkCollision`. -/
def Enemy.toObj (e : Enemy) : GameObject := ⟨e.x, e.y, e.size, e.speed⟩

/-- `interface Star` of SpaceJump.tsx. -/
structure Star where
  x : ℚ
  y : ℚ
deriving DecidableEq

def PLAYER_SIZE : ℚ := 60
def ENEMY_SIZE : ℚ := 40
def ASTEROID_SIZE : ℚ := 50
def COIN_SIZE : ℚ := 30
def BULLET_SIZE : ℚ := 5
def SPAWN_INTERVAL_ENEMY : Int := 1500
def SPAWN_INTERVAL_ASTEROID : Int := 800
def SPAWN_INTERVAL_COIN : Int := 2000
def ENEMY_HEALTH : Int := 2
def ENEMY_SHOOT_INTERVAL : Int := 2000
def PLAYER_SHOOT_INTERVAL : Int := 200

/-- `checkCollision` of SpaceJump.tsx: strict axis-aligned bounding-box
overlap. -/
def checkCollision (obj1 obj2 : GameObject) : Bool :=
  decide (obj1.x < obj2.x + obj2.size) &&
  decide (obj1.x + obj1.size > obj2.x) &&
  decide (obj1.y < obj2.y + obj2.size) &&
  decide (obj1.y + obj1.size > obj2.y)

/-- The mutable state of one SpaceJump game: the `useRef`/`useState` cells
read and written by the frame loop. -/
structure JumpState where
  player : GameObject
  enemies : List Enemy
  asteroids : List GameObject
  coins : List GameObject
  bullets : List GameObject
  enemyBullets : List GameObject
  score : Int
  gameOver : Bool
  keysLeft : Bool
  keysRight : Bool
  lastPlayerShotTime : Int
  lastEnemySpawn : Int
  lastAsteroidSpawn : Int
  lastCoinSpawn : Int
deriving DecidableEq

/-- `updatePlayer`: move by held keys, clamp the x coordinate to
`[0, GAME_WIDTH - size]`, and fire a bullet if the shot cooldown elapsed. -/
def updatePlayer (W : ℚ) (now : Int) (s : JumpState) : JumpState :=
  let x0 := if s.keysLeft then s.player.x - s.player.speed else s.player.x
  let x1 := if s.keysRight then x0 + s.player.speed else x0
  let player := { s.player with x := max 0 (min (W - s.player.size) x1) }
  if now - s.lastPlayerShotTime > PLAYER_SHOOT_INTERVAL then
    { s with player := player,
             bullets := s.bullets ++
               [⟨player.x + player.size / 2 - BULLET_SIZE / 2, player.y, BULLET_SIZE, -10⟩],
             lastPlayerShotTime := now }
  else
    { s with player := player }

/-- One step of the `enemiesRef.current.map` body in `updateEnemies`: the
moved enemy plus the bullet it fires (if its shot cooldown elapsed). -/
def stepEnemy (now : Int) (e : Enemy) : Enemy × Option GameObject :=
  if now - e.lastShotTime > ENEMY_SHOOT_INTERVAL then
    ({ e with y := e.y + e.speed, lastShotTime := now },
     some ⟨e.x + e.size / 2 - BULLET_SIZE / 2, e.y + e.size, BULLET_SIZE, 5⟩)
  else
    ({ e with y := e.y + e.speed }, none)

/-- `updateEnemies`: map `stepEnemy` over the enemies (appending fired bullets
to the enemy-bullet list in traversal order), then drop enemies that left the
bottom of the screen. -/
def updateEnemies (H : ℚ) (now : Int) (s : JumpState) : JumpState :=
  let stepped := s.enemies.map (stepEnemy now)
  { s with enemies := (stepped.map Prod.fst).filter (fun e => decide (e.y < H)),
           enemyBullets := s.enemyBullets ++ stepped.filterMap Prod.snd }

/-- `updateAsteroids`. -/
def updateAsteroids (H : ℚ) (s : JumpState) : JumpState :=
  let moved := s.asteroids.map (fun a => { a with y := a.y + a.speed })
  { s with asteroids := moved.filter (fun a => decide (a.y < H)) }

/-- `updateCoins`. -/
def updateCoins (H : ℚ) (s : JumpState) : JumpState :=
  let moved := s.coins.map (fun c => { c with y := c.y + c.speed })
  { s with coins := moved.filter (fun c => decide (c.y < H)) }

/-- `updateBullets` (player bullets travel upward; kept while `y > 0`). -/
def updateBullets (s : JumpState) : JumpState :=
  let moved := s.bullets.map (fun b => { b with y := b.y + b.speed })
  { s with bullets := moved.filter (fun b => decide (b.y > 0)) }

/-- `updateEnemyBullets`. -/
def updateEnemyBullets (H : ℚ) (s : JumpState) : JumpState :=
  let moved := s.enemyBullets.map (fun b => { b with y := b.y + b.speed })
  { s with enemyBullets := moved.filter (fun b => decide (b.y < H)) }

/-- `spawnObjects`: timer-gated creation of one enemy / asteroid / coin.  The
`Math.random()` draws for the horizontal positions are the parameters
`rE rA rC`. -/
def spawnObjects (W : ℚ) (now : Int) (rE rA rC : ℚ) (s : JumpState) : JumpState :=
  let s1 :=
    if now - s.lastEnemySpawn > SPAWN_INTERVAL_ENEMY then
      { s with enemies := s.enemies ++ [⟨rE * (W - ENEMY_SIZE), 0, ENEMY_SIZE, 2, ENEMY_HEALTH, now⟩],
               lastEnemySpawn := now }
    else s
  let s2 :=
    if now - s1.lastAsteroidSpawn > SPAWN_INTERVAL_ASTEROID then
      { s1 with asteroids := s1.asteroids ++ [⟨rA * (W - ASTEROID_SIZE), 0, ASTEROID_SIZE, 3⟩],
                lastAsteroidSpawn := now }
    else s1
  if now - s2.lastCoinSpawn > SPAWN_INTERVAL_COIN then
    { s2 with coins := s2.coins ++ [⟨rC * (W - COIN_SIZE), 0, COIN_SIZE, 2⟩],
              lastCoinSpawn := now }
  else s2

/-- The `coinsRef.current.filter` body of `checkCollisions`: traverse the
coins left to right, dropping each coin the player overlaps and counting one
queued `setScore(prev => prev + 1)` update per dropped coin.  Returns the
surviving coins and the number of collected coins. -/
def collectCoins (player : GameObject) : List GameObject → List GameObject × Int
  | [] => ([], 0)
  | c :: cs =>
    let rest := collectCoins player cs
    if checkCollision player c then (rest.1, rest.2 + 1) else (c :: rest.1, rest.2)

/-- The `enemiesRef.current.map(...).filter(...)` body run for one bullet in
`checkCollisions`: traverse the enemies; on overlap remove the element at
position `bulletIdx` of the *current* bullet list
(`filter((_, i) => i !== bulletIdx)`, i.e. `eraseIdx`), decrement health, and
drop the enemy with `setScore(prev => prev + 3)` when health reaches 0. -/
def hitEnemies (bullet : GameObject) (bulletIdx : Nat) :
    List Enemy → List GameObject → Int → List Enemy × List GameObject × Int
  | [], bl, sc => ([], bl, sc)
  | e :: es, bl, sc =>
    if checkCollision bullet e.toObj then
      let bl' := bl.eraseIdx bulletIdx
      if e.health - 1 ≤ 0 then
        hitEnemies bullet bulletIdx es bl' (sc + 3)
      else
        let rest := hitEnemies bullet bulletIdx es bl' sc
        ({ e with health := e.health - 1 } :: rest.1, rest.2)
    else
      let rest := hitEnemies bullet bulletIdx es bl sc
      (e :: rest.1, rest.2)

/-- The `bulletsRef.current.forEach((bullet, bulletIdx) => ...)` loop of
`checkCollisions`.  `forEach` iterates over the array captured at call time,
while the erasures act on the current (already reassigned) list. -/
def bulletStage (s : JumpState) : JumpState :=
  let res := s.bullets.enum.foldl
    (fun acc p => hitEnemies p.2 p.1 acc.1 acc.2.1 acc.2.2)
    (s.enemies, s.bullets, s.score)
  { s with enemies := res.1, bullets := res.2.1, score := res.2.2 }

/-- `checkCollisions` of SpaceJump.tsx: player-death check, then coin
collection, then the bullet/enemy loop. -/
def checkCollisions (s : JumpState) : JumpState :=
  let dead := s.enemies.any (fun e => checkCollision s.player e.toObj) ||
              s.asteroids.any (fun a => checkCollision s.player a) ||
              s.enemyBullets.any (fun b => checkCollision s.player b)
  let s1 := if dead then { s with gameOver := true } else s
  let coinsRes := collectCoins s1.player s1.coins
  let s2 := { s1 with coins := coinsRes.1, score := s1.score + coinsRes.2 }
  bulletStage s2

/-- The six position-update calls of `updateGame`, in source order. -/
def updateAllPositions (W H : ℚ) (now : Int) (s : JumpState) : JumpState :=
  updateEnemyBullets H (updateBullets (updateCoins H (updateAsteroids H
    (updateEnemies H now (updatePlayer W now s)))))

/-- `updateGame`: position updates, then `checkCollisions`, then
`spawnObjects` — in that source order. -/
def updateGame (W H : ℚ) (now : Int) (rE rA rC : ℚ) (s : JumpState) : JumpState :=
  spawnObjects W now rE rA rC (checkCollisions (updateAllPositions W H now s))

/-- `renderGame` of SpaceJump.tsx as its sequence of drawing primitives. -/
def renderGame (W H : ℚ) (stars : List Star) (s : JumpState) : List DrawOp :=
  [DrawOp.clearRect 0 0 W H]
  ++ stars.map (fun st => DrawOp.arc st.x st.y 1)
  ++ [DrawOp.fillText "🚀" s.player.x (s.player.y + s.player.size)]
  ++ s.enemies.map (fun e => DrawOp.fillText "👾" e.x (e.y + e.size))
  ++ s.asteroids.map (fun a => DrawOp.fillText "🌑" a.x (a.y + a.size))
  ++ s.coins.map (fun c => DrawOp.fillText "💰" c.x (c.y + c.size))
  ++ s.bullets.map (fun b => DrawOp.fillText "•" b.x b.y)
  ++ s.enemyBullets.map (fun b => DrawOp.fillText "•" b.x b.y)

/-- One invocation of SpaceJump's `gameLoop` callback: update unless game
over, then always render the current state. -/
def gameLoopFrame (W H : ℚ) (now : Int) (rE rA rC : ℚ) (stars : List Star)
    (s : JumpState) : JumpState × List DrawOp :=
  let s' := if s.gameOver then s else updateGame W H now rE rA rC s
  (s', renderGame W H stars s')

/-- `restartGame` of SpaceJump.tsx. -/
def restartGame (W : ℚ) (s : JumpState) : JumpState :=
  { s with player := { s.player with x := W / 2 - PLAYER_SIZE / 2 },
           enemies := [], asteroids := [], coins := [], bullets := [],
           enemyBullets := [], score := 0, gameOver := false }

end SpaceJump

namespace SpaceRace

/-- `interface Racer` of the SpaceRace component. -/
structure Racer where
  x : ℚ
  y : ℚ
  size : ℚ
  speed : ℚ
  isAI : Bool
  eliminated : Bool
  sprite : String
  name : String
  color : String
deriving DecidableEq

/-- `interface Block`. -/
structure Block where
  x : ℚ
  y : ℚ
  size : ℚ
  type : String
deriving DecidableEq

/-- `interface Star` (SpaceRace variant). -/
structure Star where
  x : ℚ
  y : ℚ
  size : ℚ
  opacity : ℚ
deriving DecidableEq

/-- `interface Planet`. -/
structure Planet where
  x : ℚ
  y : ℚ
  size : ℚ
  sprite : String
deriving DecidableEq

def FINISH_LINE_Y : ℚ := 100
def BOOST_MULTIPLIER : ℚ := 1.8
def BOOST_DURATION : ℚ := 2000

/-- The pressed-key booleans tracked by the `keys` ref. -/
structure Keys where
  left : Bool
  right : Bool
  up : Bool
  down : Bool
  boost : Bool
deriving DecidableEq

/-- The state cells of one SpaceRace game read and written per frame. -/
structure RaceState where
  player : Option Racer
  aiRacers : List Racer
  blocks : List Block
  score : Int
  gameOver : Bool
  winner : Option String
  isPlaying : Bool
  gameTime : Nat
  countdown : Option Nat
deriving DecidableEq

/-- The JS idiom `deltaTime * 60 || 1`: the product, or 1 when it is 0. -/
def deltaFactor (deltaTime : ℚ) : ℚ :=
  if deltaTime * 60 = 0 then 1 else deltaTime * 60

/-- `isColliding` of the SpaceRace component: per-axis center-distance test
with both boxes scaled to 70 % of their nominal size. -/
def isColliding (racer : Racer) (block : Block) : Bool :=
  let racerCollisionSize := racer.size * 0.7
  let blockCollisionSize := block.size * 0.7
  let racerCenterX := racer.x + racer.size / 2
  let racerCenterY := racer.y + racer.size / 2
  let blockCenterX := block.x + block.size / 2
  let blockCenterY := block.y + block.size / 2
  decide (|racerCenterX - blockCenterX| < (racerCollisionSize + blockCollisionSize) / 2) &&
  decide (|racerCenterY - blockCenterY| < (racerCollisionSize + blockCollisionSize) / 2)

/-- `updatePlayer` of the SpaceRace component on a (non-null) racer: move by
the held keys scaled by the delta factor, then clamp x to
`[0, GAME_WIDTH - size]` and y to `[0, RACE_DISTANCE - size]`. -/
def updatePlayer (W D deltaTime : ℚ) (keys : Keys) (p : Racer) : Racer :=
  if p.eliminated then p
  else
    let k := deltaFactor deltaTime
    let x0 := if keys.left then p.x - p.speed * k else p.x
    let x1 := if keys.right then x0 + p.speed * k else x0
    let y0 := if keys.up then p.y - p.speed * k else p.y
    let y1 := if keys.down then y0 + p.speed * k * 0.7 else y0
    { p with x := max 0 (min (W - p.size) x1),
             y := max 0 (min (D - p.size) y1) }

/-- The `if (!player || player.eliminated) return;` guard lifted to the
nullable player ref. -/
def updatePlayerOpt (W D deltaTime : ℚ) (keys : Keys) : Option Racer → Option Racer
  | none => none
  | some p => some (updatePlayer W D deltaTime keys p)

/-- The `Math.random()` draws one AI racer may consume in `updateAI`:
the avoidance jitter, the 2 % jitter gate, and the jitter amount. -/
structure AIRand where
  avoid : ℚ
  jitterGate : ℚ
  jitter : ℚ
deriving DecidableEq

/-- The closest-block scan of `updateAI`.  The source compares Euclidean
distances `Math.sqrt(dx*dx + dy*dy)`; square root is strictly monotone on
nonnegatives, so the scan is modelled by comparing squared distances, with the
`Number.MAX_VALUE` initial value modelled as `none`. -/
def closestBlockTo (ai : Racer) (blocks : List Block) : Option Block :=
  (blocks.foldl
    (fun acc block =>
      let dx := block.x + block.size / 2 - (ai.x + ai.size / 2)
      let dy := block.y - ai.y
      let distSq := dx * dx + dy * dy
      let better : Bool := match acc with
        | none => true
        | some best => decide (distSq < best.1)
      if decide (dy < 0) && decide (dy > -200) && decide (|dx| < 100) && better then
        some (distSq, block)
      else acc)
    none).map Prod.snd

/-- The body of the `aiRacersRef.current.forEach` loop in `updateAI` for one
AI racer, given its random draws. -/
def updateOneAI (W deltaTime : ℚ) (blocks : List Block) (r : AIRand) (ai : Racer) : Racer :=
  if ai.eliminated then ai
  else
    let k := deltaFactor deltaTime
    let ai1 := { ai with y := ai.y - ai.speed * k }
    let lateral1 : ℚ :=
      match closestBlockTo ai1 blocks with
      | some block =>
        let dx := block.x + block.size / 2 - (ai1.x + ai1.size / 2)
        (if dx > 0 then -ai1.speed else ai1.speed) + (r.avoid - 0.5) * 2
      | none => 0
    let lateral2 := if r.jitterGate < 0.02 then lateral1 + (r.jitter - 0.5) * 3 else lateral1
    { ai1 with x := max 0 (min (W - ai1.size) (ai1.x + lateral2 * k)) }

/-- `updateAI`: each AI racer advances and steers, consuming its own random
draws (indexed by position in the list). -/
def updateAI (W deltaTime : ℚ) (rands : Nat → AIRand) (blocks : List Block)
    (ais : List Racer) : List Racer :=
  ais.enum.map (fun p => updateOneAI W deltaTime blocks (rands p.1) p.2)

/-- `checkCollisions` of the SpaceRace component: any block overlap
eliminates the player / an AI racer. -/
def checkCollisions (blocks : List Block) (player : Option Racer) (ais : List Racer) :
    Option Racer × List Racer :=
  let player' :=
    match player with
    | none => none
    | some p =>
      some (if !p.eliminated && blocks.any (fun b => isColliding p b) then
              { p with eliminated := true }
            else p)
  let ais' := ais.map (fun ai =>
    if !ai.eliminated && blocks.any (fun b => isColliding ai b) then
      { ai with eliminated := true }
    else ai)
  (player', ais')

/-- The string ids `'player'` / `'ai-${idx}'` attached in
`checkWinCondition`. -/
inductive RacerId where
  | player
  | ai (idx : Nat)
deriving DecidableEq

/-- Insertion position of an id in the pre-sort list: the player entry is
pushed first, then the AI entries in index order. -/
def RacerId.order : RacerId → Nat
  | RacerId.player => 0
  | RacerId.ai i => i + 1

/-- One element of the local `racers` array of `checkWinCondition`: a copy of
the racer tagged with its id. -/
structure Entrant where
  racer : Racer
  id : RacerId
deriving DecidableEq

/-- The `racers` array of `checkWinCondition` before sorting: the live player
first, then the live AI racers in index order. -/
def entrants (player : Option Racer) (ais : List Racer) : List Entrant :=
  (match player with
   | some p => if p.eliminated then [] else [⟨p, RacerId.player⟩]
   | none => []) ++
  ais.enum.filterMap
    (fun p => if p.2.eliminated then none else some ⟨p.2, RacerId.ai p.1⟩)

/-- Insert into a list sorted ascending by `key`, before the first element
with a key `≥` the new one (so equal keys keep the newly inserted — earlier —
element first). -/
def insertBy (key : α → ℚ) (e : α) : List α → List α
  | [] => [e]
  | f :: fs => if key e ≤ key f then e :: f :: fs else f :: insertBy key e fs

/-- Stable ascending sort by `key`, modelling
`racers.sort((a, b) => a.y - b.y)`: `Array.prototype.sort` is stable
(ES2019), and stable insertion sort computes exactly the stable sort. -/
def sortBy (key : α → ℚ) : List α → List α
  | [] => []
  | e :: es => insertBy key e (sortBy key es)

/-- The sorted `racers` array of `checkWinCondition`. -/
def rankedRacers (player : Option Racer) (ais : List Racer) : List Entrant :=
  sortBy (fun e => e.racer.y) (entrants player ais)

/-- The outcome of one `checkWinCondition` call: either no transition, or the
finished transition with the recorded winner and score
(`setWinner`, `setScore`, `setGameOver(true)`, `setIsPlaying(false)`). -/
inductive WinOutcome where
  | continueRace
  | finished (winner : String) (score : Int)
deriving DecidableEq

/-- `checkWinCondition` of the SpaceRace component.  `aiRacersRef.current[aiIndex]`
is modelled with `get?` (the index always comes from `enum`, so the `getD`
default is never reached), and `findIndex` returning `-1` by `findIdx?`
returning `none`. -/
def checkWinCondition (player : Option Racer) (ais : List Racer) : WinOutcome :=
  match rankedRacers player ais with
  | [] => WinOutcome.finished "No one" 0
  | leader :: rest =>
    if leader.racer.y ≤ FINISH_LINE_Y then
      match leader.id with
      | RacerId.player => WinOutcome.finished "You" 6
      | RacerId.ai idx =>
        let winnerName := ((ais.get? idx).map Racer.name).getD ""
        let score : Int :=
          match (leader :: rest).findIdx? (fun e => decide (e.id = RacerId.player)) with
          | some pos => max 1 (6 - (pos : Int))
          | none => 0
        WinOutcome.finished winnerName score
    else WinOutcome.continueRace

/-- Apply a `checkWinCondition` outcome to the component state. -/
def applyWin (s : RaceState) : RaceState :=
  match checkWinCondition s.player s.aiRacers with
  | WinOutcome.continueRace => s
  | WinOutcome.finished w sc =>
    { s with winner := some w, score := sc, gameOver := true, isPlaying := false }

/-- `updateGame` of the SpaceRace component: player update, AI update,
collision elimination, win condition. -/
def updateGame (W D deltaTime : ℚ) (keys : Keys) (rands : Nat → AIRand)
    (s : RaceState) : RaceState :=
  let s1 := { s with player := updatePlayerOpt W D deltaTime keys s.player }
  let s2 := { s1 with aiRacers := updateAI W deltaTime rands s1.blocks s1.aiRacers }
  let cc := checkCollisions s2.blocks s2.player s2.aiRacers
  let s3 := { s2 with player := cc.1, aiRacers := cc.2 }
  applyWin s3

/-- `updateCamera`: follow the player, or the leading live AI racer when the
player is gone, clamped to the track. -/
def updateCamera (H D cameraY : ℚ) (s : RaceState) : ℚ :=
  let leaderBased :=
    match sortBy (fun r : Racer => r.y) (s.aiRacers.filter (fun r => !r.eliminated)) with
    | [] => cameraY
    | leader :: _ => max 0 (min (D - H) (leader.y - H / 2))
  match s.player with
  | none => leaderBased
  | some p =>
    if p.eliminated then leaderBased
    else max 0 (min (D - H) (p.y - H / 2))

/-- The boost block at the top of the SpaceRace `gameLoop` body: activation
(speed ×1.8) and expiry (speed ÷1.8, cooldown on).  Returns the player, the
active/cooldown flags and the boost start time. -/
def boostStep (timestamp boostStartTime : ℚ) (keysBoost boostActive boostCooldown : Bool)
    (p : Option Racer) : Option Racer × Bool × Bool × ℚ :=
  let act := keysBoost && !boostActive && !boostCooldown && p.isSome
  let p1 := if act then p.map (fun r => { r with speed := r.speed * BOOST_MULTIPLIER }) else p
  let a1 := if act then true else boostActive
  let t1 := if act then timestamp else boostStartTime
  if a1 && decide (timestamp - t1 > BOOST_DURATION) && p1.isSome then
    (p1.map (fun r => { r with speed := r.speed / BOOST_MULTIPLIER }), false, true, t1)
  else (p1, a1, boostCooldown, t1)

/-- `renderGame` of the SpaceRace component as its sequence of drawing
primitives.  `ctx.measureText(...).width` is the parameter `measure`. -/
def renderGame (W H : ℚ) (measure : String → ℚ) (cameraY : ℚ)
    (boostActive : Bool) (stars : List Star) (planets : List Planet)
    (s : RaceState) : List DrawOp :=
  [DrawOp.fillRect 0 0 W H]
  ++ (stars.filterMap (fun st =>
        let y := st.y - cameraY
        if decide (0 ≤ y) && decide (y ≤ H) then some (DrawOp.arc st.x y st.size) else none))
  ++ (planets.filterMap (fun p =>
        let y := p.y - cameraY
        if decide (-p.size ≤ y) && decide (y ≤ H) then
          some (DrawOp.fillText p.sprite p.x (y + p.size))
        else none))
  ++ (let finishY := FINISH_LINE_Y - cameraY
      if decide (-20 ≤ finishY) && decide (finishY ≤ H) then
        ((List.range (⌈W / 20⌉).toNat).flatMap (fun i =>
          [DrawOp.fillRect ((i : ℚ) * 20) finishY 20 20,
           DrawOp.fillRect ((i : ℚ) * 20) (finishY + 20) 20 20]))
        ++ [DrawOp.fillText "FINISH LINE" (W / 2 - 70) (finishY - 10)]
      else [])
  ++ (s.blocks.filterMap (fun b =>
        let y := b.y - cameraY
        if decide (-b.size ≤ y) && decide (y ≤ H) then
          some (DrawOp.fillText b.type b.x (y + b.size))
        else none))
  ++ (s.aiRacers.flatMap (fun ai =>
        let y := ai.y - cameraY
        if decide (-ai.size ≤ y) && decide (y ≤ H) then
          [DrawOp.fillText ai.sprite ai.x (y + ai.size),
           DrawOp.fillText ai.name (ai.x + ai.size / 2 - measure ai.name / 2) (y + ai.size + 20)]
        else []))
  ++ (match s.player with
      | none => []
      | some p =>
        let y := p.y - cameraY
        if decide (-p.size ≤ y) && decide (y ≤ H) then
          (if !p.eliminated && boostActive then
            [DrawOp.fillText "🔥" p.x (y + p.size + 20)]
          else [])
          ++ [DrawOp.fillText p.sprite p.x (y + p.size),
              DrawOp.fillText "YOU" (p.x + p.size / 2 - measure "YOU" / 2) (y + p.size + 20)]
        else [])
  ++ (match s.player with
      | none => []
      | some p =>
        if p.eliminated then []
        else
          [DrawOp.fillRect (W - 130) (H - 30) 100 10,
           DrawOp.fillRect (W - 130) (H - 30) 100 10,
           DrawOp.fillText "BOOST (SHIFT)" (W - 130 + 5) (H - 30 - 5)])

/-- One invocation of the SpaceRace `gameLoop` callback.  When game over is
set it paints only the background rectangle; otherwise it runs the boost
block, the update step, the camera update, and the full render. -/
def gameLoopFrame (W H D timestamp deltaTime : ℚ) (keys : Keys) (rands : Nat → AIRand)
    (measure : String → ℚ) (stars : List Star) (planets : List Planet)
    (cameraY boostStartTime : ℚ) (boostActive boostCooldown : Bool)
    (s : RaceState) : RaceState × ℚ × List DrawOp :=
  if s.gameOver then (s, cameraY, [DrawOp.fillRect 0 0 W H])
  else
    let b := boostStep timestamp boostStartTime keys.boost boostActive boostCooldown s.player
    let s1 := updateGame W D deltaTime keys rands { s with player := b.1 }
    let cameraY' := updateCamera H D cameraY s1
    (s1, cameraY', renderGame W H measure cameraY' b.2.1 stars planets s1)

/-- `restartGame` of the SpaceRace component: only the `useState` cells are
reset; the entity refs (`aiRacersRef`, `blocksRef`, `playerRacerRef`) are not
touched here. -/
def restartGame (s : RaceState) : RaceState :=
  { s with isPlaying := false, gameOver := false, winner := none, score := 0,
           gameTime := 0, countdown := none }

/-- The countdown overlay text: `countdown > 0 ? 'Game Begins in ...' : 'GO!'`. -/
def countdownView (c : Nat) : String :=
  if c > 0 then "Game Begins in " ++ toString c else "GO!"

/-- Discrete-event run of the countdown effect started at time `t` with value
`c`.  Modelled timers: the one-second `setInterval` decrements a positive
countdown (`prev > 0 ? prev - 1 : null`) 1000 ms after each countdown change
(the effect re-registers on every change); at countdown `0` the 500 ms
`setTimeout` fires before the pending 1000 ms tick (500 < 1000) and sets
`isPlaying` to `true` and the countdown to `null`.  Returns the displayed
overlay values with their times, and the transition time with the final
countdown and `isPlaying` cells. -/
def countdownRun (t : Nat) : Nat → List (Nat × String) × (Nat × Option Nat × Bool)
  | 0 => ([(t, countdownView 0)], (t + 500, none, true))
  | n + 1 =>
    let rest := countdownRun (t + 1000) n
    ((t, countdownView (n + 1)) :: rest.1, rest.2)

end SpaceRace

/-! ### Spec-side definitions and concrete example states -/

namespace SpaceRace

/-- Written from the spec's words (C4): the low edge of an object's box
shrunk to 70 % of its size about its center. -/
def shrunkLo (x size : ℚ) : ℚ := x + size / 2 - size * 0.7 / 2

/-- Written from the spec's words (C4): the high edge of an object's box
shrunk to 70 % of its size about its center. -/
def shrunkHi (x size : ℚ) : ℚ := x + size / 2 + size * 0.7 / 2

/-- Written from the spec's words (C4): strict axis-aligned overlap of the
two boxes shrunk to 70 % of their nominal size about their centers. -/
def shrunkBoxesOverlap (racer : Racer) (block : Block) : Bool :=
  decide (shrunkLo racer.x racer.size < shrunkHi block.x block.size) &&
  decide (shrunkLo block.x block.size < shrunkHi racer.x racer.size) &&
  decide (shrunkLo racer.y racer.size < shrunkHi block.y block.size) &&
  decide (shrunkLo block.y block.size < shrunkHi racer.y racer.size)

/-- A live player racer already past the finish line (C3 witness). -/
def finishPlayer : Racer :=
  { x := 10, y := 50, size := 70, speed := 5, isAI := false, eliminated := false,
    sprite := "🚀", name := "Player", color := "#3498db" }

/-- A live AI racer still far from the finish line (C3 witness). -/
def chasingAI : Racer :=
  { x := 200, y := 200, size := 70, speed := 4, isAI := true, eliminated := false,
    sprite := "👾", name := "Invader", color := "#9b59b6" }

/-- A finished SpaceRace game whose live player is still on screen (C6
counterexample). -/
def frozenRaceState : RaceState :=
  { player := some finishPlayer, aiRacers := [], blocks := [], score := 6,
    gameOver := true, winner := some "You", isPlaying := false,
    gameTime := 9, countdown := none }

/-- A stale AI racer left over from a finished race (eliminated flag set). -/
def staleRacer : Racer :=
  { x := 100, y := 200, size := 70, speed := 3, isAI := true, eliminated := true,
    sprite := "🛸", name := "Orbiter", color := "#e74c3c" }

/-- A finished SpaceRace game about to be restarted, with `staleRacer` still
in the AI list. -/
def staleRaceState : RaceState :=
  { player := none, aiRacers := [staleRacer], blocks := [], score := 4,
    gameOver := true, winner := some "Orbiter", isPlaying := false,
    gameTime := 12, countdown := none }

end SpaceRace

namespace SpaceJump

/-- C1 failing frame, bullet 0: overlaps enemy 0. -/
def bulletA : GameObject := ⟨10, 10, 5, -10⟩

/-- C1 failing frame, bullet 1: overlaps enemy 1 (and is the projectile the
collision consumes). -/
def bulletB : GameObject := ⟨110, 10, 5, -10⟩

/-- C1 failing frame, bullet 2: overlaps nothing. -/
def bulletC : GameObject := ⟨300, 300, 5, -10⟩

/-- C1 failing frame, enemy 0 (health 2). -/
def enemyA : Enemy := ⟨0, 0, 40, 2, 2, 0⟩

/-- C1 failing frame, enemy 1 (health 2). -/
def enemyB : Enemy := ⟨100, 0, 40, 2, 2, 0⟩

/-- The C1 failing frame: bullets 0 and 1 each overlap one enemy, bullet 2
overlaps nothing, and the player touches nothing. -/
def bugState : JumpState :=
  { player := ⟨500, 500, 60, 5⟩, enemies := [enemyA, enemyB],
    asteroids := [], coins := [], bullets := [bulletA, bulletB, bulletC],
    enemyBullets := [], score := 0, gameOver := false,
    keysLeft := false, keysRight := false, lastPlayerShotTime := 0,
    lastEnemySpawn := 0, lastAsteroidSpawn := 0, lastCoinSpawn := 0 }

/-- The C2 frame: no entities yet, and the enemy and asteroid spawn timers
are due. -/
def orderState : JumpState :=
  { player := ⟨470, 430, 60, 5⟩, enemies := [], asteroids := [], coins := [],
    bullets := [], enemyBullets := [], score := 0, gameOver := false,
    keysLeft := false, keysRight := false, lastPlayerShotTime := 2000,
    lastEnemySpawn := 0, lastAsteroidSpawn := 0, lastCoinSpawn := 0 }

/-- The C8 counterexample frame: the player overlaps one coin while a bullet
kills a health-1 enemy in the same `checkCollisions` call. -/
def coinKillState : JumpState :=
  { player := ⟨0, 0, 60, 5⟩, enemies := [⟨10, 10, 40, 2, 1, 0⟩],
    asteroids := [], coins := [⟨20, 20, 30, 2⟩], bullets := [⟨15, 15, 5, -10⟩],
    enemyBullets := [], score := 0, gameOver := false,
    keysLeft := false, keysRight := false, lastPlayerShotTime := 0,
    lastEnemySpawn := 0, lastAsteroidSpawn := 0, lastCoinSpawn := 0 }

/-- A SpaceJump game that has just ended with one live enemy on screen (C6
witness). -/
def frozenJumpState : JumpState :=
  { player := ⟨100, 430, 60, 5⟩, enemies := [⟨50, 60, 40, 2, 2, 0⟩],
    asteroids := [], coins := [], bullets := [], enemyBullets := [],
    score := 7, gameOver := true,
    keysLeft := false, keysRight := false, lastPlayerShotTime := 0,
    lastEnemySpawn := 0, lastAsteroidSpawn := 0, lastCoinSpawn := 0 }

/-- The C8 witness frame: the player overlaps the first of two coins and
there are no bullets in flight. -/
def coinOnlyState : JumpState :=
  { player := ⟨0, 0, 60, 5⟩, enemies := [], asteroids := [],
    coins := [⟨20, 20, 30, 2⟩, ⟨500, 500, 30, 2⟩], bullets := [],
    enemyBullets := [], score := 5, gameOver := false,
    keysLeft := false, keysRight := false, lastPlayerShotTime := 0,
    lastEnemySpawn := 0, lastAsteroidSpawn := 0, lastCoinSpawn := 0 }

end SpaceJump

/-! ### Supporting lemmas -/

namespace SpaceRace

theorem mem_insertBy {key : α → ℚ} {e a : α} {l : List α} :
    a ∈ insertBy key e l ↔ a = e ∨ a ∈ l := by
  induction l with
  | nil => simp [insertBy]
  | cons f fs ih =>
    simp only [insertBy]
    split
    · simp [List.mem_cons]
    · simp only [List.mem_cons, ih]
      tauto

theorem insertBy_perm (key : α → ℚ) (e : α) (l : List α) :
    List.Perm (insertBy key e l) (e :: l) := by
  induction l with
  | nil => simp [insertBy]
  | cons f fs ih =>
    simp only [insertBy]
    split
    · exact List.Perm.refl _
    · exact (List.Perm.cons f ih).trans (List.Perm.swap e f fs)

theorem sortBy_perm (key : α → ℚ) (l : List α) : List.Perm (sortBy key l) l := by
  induction l with
  | nil => simp [sortBy]
  | cons e es ih =>
    exact (insertBy_perm key e (sortBy key es)).trans (List.Perm.cons e ih)

theorem insertBy_sorted {key : α → ℚ} {e : α} {l : List α}
    (h : l.Pairwise (fun a b => key a ≤ key b)) :
    (insertBy key e l).Pairwise (fun a b => key a ≤ key b) := by
  induction l with
  | nil => simp [insertBy]
  | cons f fs ih =>
    rcases List.pairwise_cons.mp h with ⟨hf, hfs⟩
    simp only [insertBy]
    split
    · next hle =>
      refine List.pairwise_cons.mpr ⟨?_, h⟩
      intro g hg
      rcases List.mem_cons.mp hg with rfl | hg'
      · exact hle
      · exact le_trans hle (hf g hg')
    · next hgt =>
      refine List.pairwise_cons.mpr ⟨?_, ih hfs⟩
      intro g hg
      rcases mem_insertBy.mp hg with rfl | hg'
      · exact (not_le.mp hgt).le
      · exact hf g hg'

theorem sortBy_sorted (key : α → ℚ) (l : List α) :
    (sortBy key l).Pairwise (fun a b => key a ≤ key b) := by
  induction l with
  | nil => simp [sortBy]
  | cons e es ih => exact insertBy_sorted ih

theorem insertBy_stable {key : α → ℚ} {P : α → α → Prop} {e : α} {l : List α}
    (hT : l.Pairwise (fun a b => key a = key b → P a b))
    (he : ∀ f ∈ l, key e = key f → P e f) :
    (insertBy key e l).Pairwise (fun a b => key a = key b → P a b) := by
  induction l with
  | nil => simp [insertBy]
  | cons f fs ih =>
    rcases List.pairwise_cons.mp hT with ⟨hf, hfs⟩
    simp only [insertBy]
    split
    · exact List.pairwise_cons.mpr ⟨he, hT⟩
    · next hgt =>
      refine List.pairwise_cons.mpr
        ⟨?_, ih hfs (fun g hg => he g (List.mem_cons_of_mem f hg))⟩
      intro g hg hkey
      rcases mem_insertBy.mp hg with rfl | hg'
      · exact absurd hkey.symm.le hgt
      · exact hf g hg' hkey

theorem sortBy_stable {key : α → ℚ} {P : α → α → Prop} {l : List α}
    (hT : l.Pairwise (fun a b => key a = key b → P a b)) :
    (sortBy key l).Pairwise (fun a b => key a = key b → P a b) := by
  induction l with
  | nil => simp [sortBy]
  | cons e es ih =>
    rcases List.pairwise_cons.mp hT with ⟨he, hes⟩
    exact insertBy_stable (ih hes)
      (fun f hf => he f ((sortBy_perm key es).mem_iff.mp hf))

theorem le_fst_of_mem_enumFrom {l : List β} {p : Nat × β} :
    ∀ {k : Nat}, p ∈ List.enumFrom k l → k ≤ p.1 := by
  induction l with
  | nil => intro k h; simp [List.enumFrom] at h
  | cons x xs ih =>
    intro k h
    rcases List.mem_cons.mp h with rfl | h'
    · exact le_refl _
    · exact le_trans (Nat.le_succ k) (ih h')

theorem pairwise_fst_lt_enumFrom (l : List β) :
    ∀ k : Nat, (List.enumFrom k l).Pairwise (fun a b => a.1 < b.1) := by
  induction l with
  | nil => intro k; simp [List.enumFrom]
  | cons x xs ih =>
    intro k
    refine List.pairwise_cons.mpr ⟨?_, ih (k + 1)⟩
    intro p hp
    exact lt_of_lt_of_le (Nat.lt_succ_self k) (le_fst_of_mem_enumFrom hp)

/-- The pre-sort `racers` array has strictly increasing insertion order:
player entry first, then AI entries in index order. -/
theorem entrants_pairwise (player : Option Racer) (ais : List Racer) :
    (entrants player ais).Pairwise (fun a b => a.id.order < b.id.order) := by
  apply List.pairwise_append.mpr
  refine ⟨?_, ?_, ?_⟩
  · match player with
    | none => simp
    | some p =>
      by_cases h : p.eliminated <;> simp [h]
  · apply List.pairwise_filterMap.mpr
    apply (pairwise_fst_lt_enumFrom ais 0).imp
    intro a b hab x hx y hy
    by_cases ha : a.2.eliminated <;> simp [ha] at hx
    by_cases hb : b.2.eliminated <;> simp [hb] at hy
    subst hx; subst hy
    simpa [RacerId.order] using hab
  · intro a ha b hb
    match player with
    | none => simp at ha
    | some p =>
      by_cases h : p.eliminated <;> simp [h] at ha
      subst ha
      rcases List.mem_filterMap.mp hb with ⟨q, hq, hfq⟩
      by_cases hqe : q.2.eliminated <;> simp [hqe] at hfq
      subst hfq
      simp [RacerId.order]

end SpaceRace

namespace SpaceJump

theorem collectCoins_fst (player : GameObject) (l : List GameObject) :
    (collectCoins player l).1 = l.filter (fun c => !checkCollision player c) := by
  induction l with
  | nil => rfl
  | cons c cs ih =>
    simp only [collectCoins, List.filter_cons]
    cases h : checkCollision player c <;> simp [h, ih]

theorem collectCoins_snd (player : GameObject) (l : List GameObject) :
    (collectCoins player l).2 = (l.countP (fun c => checkCollision player c) : Int) := by
  induction l with
  | nil => rfl
  | cons c cs ih =>
    simp only [collectCoins, List.countP_cons]
    cases h : checkCollision player c <;> simp [h, ih]

theorem hitEnemies_bullets_sublist (bullet : GameObject) (i : Nat) :
    ∀ (es : List Enemy) (bl : List GameObject) (sc : Int),
      ((hitEnemies bullet i es bl sc).2.1).Sublist bl := by
  intro es
  induction es with
  | nil => intro bl sc; exact List.Sublist.refl bl
  | cons e es ih =>
    intro bl sc
    simp only [hitEnemies]
    split
    · split
      · exact (ih _ _).trans (List.eraseIdx_sublist bl i)
      · exact (ih _ _).trans (List.eraseIdx_sublist bl i)
    · exact ih bl sc

theorem hitEnemies_pos_sublist (bullet : GameObject) (i : Nat) :
    ∀ (es : List Enemy) (bl : List GameObject) (sc : Int),
      (((hitEnemies bullet i es bl sc).1).map (fun e => (e.x, e.y))).Sublist
        (es.map (fun e => (e.x, e.y))) := by
  intro es
  induction es with
  | nil => intro bl sc; exact List.Sublist.refl _
  | cons e es ih =>
    intro bl sc
    simp only [hitEnemies, List.map_cons]
    split
    · split
      · exact List.Sublist.cons _ (ih _ _)
      · exact List.Sublist.cons₂ _ (ih _ _)
    · exact List.Sublist.cons₂ _ (ih bl sc)

theorem foldlHit_bullets_sublist (L : List (Nat × GameObject)) :
    ∀ (en : List Enemy) (bl : List GameObject) (sc : Int),
      ((L.foldl (fun acc p => hitEnemies p.2 p.1 acc.1 acc.2.1 acc.2.2)
        (en, bl, sc)).2.1).Sublist bl := by
  induction L with
  | nil => intro en bl sc; exact List.Sublist.refl bl
  | cons p L ih =>
    intro en bl sc
    simp only [List.foldl_cons]
    exact (ih _ _ _).trans (hitEnemies_bullets_sublist p.2 p.1 en bl sc)

theorem foldlHit_pos_sublist (L : List (Nat × GameObject)) :
    ∀ (en : List Enemy) (bl : List GameObject) (sc : Int),
      (((L.foldl (fun acc p => hitEnemies p.2 p.1 acc.1 acc.2.1 acc.2.2)
        (en, bl, sc)).1).map (fun e => (e.x, e.y))).Sublist
        (en.map (fun e => (e.x, e.y))) := by
  induction L with
  | nil => intro en bl sc; exact List.Sublist.refl _
  | cons p L ih =>
    intro en bl sc
    simp only [List.foldl_cons]
    exact (ih _ _ _).trans (hitEnemies_pos_sublist p.2 p.1 en bl sc)

theorem checkCollisions_player (s : JumpState) :
    (checkCollisions s).player = s.player := by
  simp only [checkCollisions, bulletStage]
  split <;> rfl

theorem checkCollisions_asteroids (s : JumpState) :
    (checkCollisions s).asteroids = s.asteroids := by
  simp only [checkCollisions, bulletStage]
  split <;> rfl

theorem checkCollisions_enemyBullets (s : JumpState) :
    (checkCollisions s).enemyBullets = s.enemyBullets := by
  simp only [checkCollisions, bulletStage]
  split <;> rfl

theorem checkCollisions_coins (s : JumpState) :
    (checkCollisions s).coins = s.coins.filter (fun c => !checkCollision s.player c) := by
  simp only [checkCollisions, bulletStage]
  split <;> exact collectCoins_fst _ _

theorem checkCollisions_bullets_sublist (s : JumpState) :
    ((checkCollisions s).bullets).Sublist s.bullets := by
  simp only [checkCollisions, bulletStage]
  split <;> exact foldlHit_bullets_sublist _ _ _ _

theorem checkCollisions_enemies_pos_sublist (s : JumpState) :
    (((checkCollisions s).enemies).map (fun e => (e.x, e.y))).Sublist
      (s.enemies.map (fun e => (e.x, e.y))) := by
  simp only [checkCollisions, bulletStage]
  split <;> exact foldlHit_pos_sublist _ _ _ _

theorem hitEnemies_no_collision (bullet : GameObject) (i : Nat) :
    ∀ (es : List Enemy) (bl : List GameObject) (sc : Int),
      (∀ e ∈ es, checkCollision bullet e.toObj = false) →
      hitEnemies bullet i es bl sc = (es, bl, sc) := by
  intro es
  induction es with
  | nil => intro bl sc _; rfl
  | cons e es ih =>
    intro bl sc h
    have he := h e (List.mem_cons_self e es)
    simp [hitEnemies, he, ih bl sc (fun e' he' => h e' (List.mem_cons_of_mem e he'))]

theorem snd_mem_of_mem_enumFrom {l : List β} {p : Nat × β} :
    ∀ {k : Nat}, p ∈ List.enumFrom k l → p.2 ∈ l := by
  induction l with
  | nil => intro k h; simp [List.enumFrom] at h
  | cons x xs ih =>
    intro k h
    rcases List.mem_cons.mp h with rfl | h'
    · exact List.mem_cons_self x xs
    · exact List.mem_cons_of_mem x (ih h')

theorem foldlHit_no_collision (L : List (Nat × GameObject)) :
    ∀ (en : List Enemy) (bl : List GameObject) (sc : Int),
      (∀ p ∈ L, ∀ e ∈ en, checkCollision p.2 e.toObj = false) →
      L.foldl (fun acc p => hitEnemies p.2 p.1 acc.1 acc.2.1 acc.2.2) (en, bl, sc) =
        (en, bl, sc) := by
  induction L with
  | nil => intro en bl sc _; rfl
  | cons p L ih =>
    intro en bl sc h
    simp only [List.foldl_cons]
    rw [hitEnemies_no_collision p.2 p.1 en bl sc (h p (List.mem_cons_self p L))]
    exact ih en bl sc (fun q hq => h q (List.mem_cons_of_mem p hq))

theorem bulletStage_no_collision (s : JumpState)
    (h : ∀ b ∈ s.bullets, ∀ e ∈ s.enemies, checkCollision b e.toObj = false) :
    bulletStage s = s := by
  have hL : ∀ p ∈ s.bullets.enum, ∀ e ∈ s.enemies, checkCollision p.2 e.toObj = false :=
    fun p hp => h p.2 (snd_mem_of_mem_enumFrom hp)
  simp only [bulletStage]
  rw [foldlHit_no_collision s.bullets.enum s.enemies s.bullets s.score hL]

theorem updatePlayer_x_bounds (W : ℚ) (now : Int) (s : JumpState)
    (hW : s.player.size ≤ W) :
    0 ≤ (updatePlayer W now s).player.x ∧
      (updatePlayer W now s).player.x ≤ W - s.player.size := by
  simp only [updatePlayer]
  split_ifs <;>
    exact ⟨le_max_left 0 _, max_le (by linarith) (min_le_left _ _)⟩

end SpaceJump

namespace SpaceRace

theorem updatePlayer_bounds (W D dt : ℚ) (keys : Keys) (p : Racer)
    (hW : p.size ≤ W) (hD : p.size ≤ D)
    (hx0 : 0 ≤ p.x) (hx1 : p.x ≤ W - p.size) (hy0 : 0 ≤ p.y) (hy1 : p.y ≤ D - p.size) :
    0 ≤ (updatePlayer W D dt keys p).x ∧ (updatePlayer W D dt keys p).x ≤ W - p.size
    ∧ 0 ≤ (updatePlayer W D dt keys p).y ∧ (updatePlayer W D dt keys p).y ≤ D - p.size := by
  simp only [updatePlayer]
  split_ifs <;>
    first
    | exact ⟨hx0, hx1, hy0, hy1⟩
    | exact ⟨le_max_left 0 _, max_le (by linarith) (min_le_left _ _),
             le_max_left 0 _, max_le (by linarith) (min_le_left _ _)⟩

end SpaceRace

/-! ### Claim theorems -/

/-- C5: SpaceJump's `checkCollision` — the strict axis-aligned bounding-box
overlap test — is symmetric: `checkCollision a b = checkCollision b a` for
every pair of `GameObject`s. -/
theorem checkCollision_symm (a b : SpaceJump.GameObject) :
    SpaceJump.checkCollision a b = SpaceJump.checkCollision b a := by
  simp only [SpaceJump.checkCollision, gt_iff_lt]
  ac_rfl

namespace SpaceRace

/-- One axis of the C4 equivalence: the center-distance test equals strict
overlap of the shrunk intervals on that axis. -/
theorem axis_center_dist_eq_shrunk_overlap (x y sA sB : ℚ) :
    decide (|x + sA / 2 - (y + sB / 2)| < (sA * 0.7 + sB * 0.7) / 2) =
      (decide (shrunkLo x sA < shrunkHi y sB) && decide (shrunkLo y sB < shrunkHi x sA)) := by
  rw [Bool.eq_iff_iff]
  simp only [shrunkLo, shrunkHi, Bool.and_eq_true, decide_eq_true_eq, abs_sub_lt_iff]
  constructor
  · rintro ⟨h1, h2⟩
    exact ⟨by linarith, by linarith⟩
  · rintro ⟨h1, h2⟩
    exact ⟨by linarith, by linarith⟩

end SpaceRace

/-- C4: SpaceRace's `isColliding` center-distance test with the 0.7 scale
factor agrees, on every racer and block, with axis-aligned overlap of the
boxes shrunk to 70 % of their size about their centers. -/
theorem isColliding_eq_shrunkBoxesOverlap (r : SpaceRace.Racer) (b : SpaceRace.Block) :
    SpaceRace.isColliding r b = SpaceRace.shrunkBoxesOverlap r b := by
  simp only [SpaceRace.isColliding, SpaceRace.shrunkBoxesOverlap,
    SpaceRace.axis_center_dist_eq_shrunk_overlap]
  ac_rfl

/-- C7: starting the SpaceRace countdown at 3 makes the overlay display
exactly "Game Begins in 3", "Game Begins in 2", "Game Begins in 1", "GO!" at
one-second spacing, and only afterwards (500 ms after "GO!" appears) set
`isPlaying` to true and clear the countdown. -/
theorem countdownRun_from_three :
    SpaceRace.countdownRun 0 3 =
      ([(0, "Game Begins in 3"), (1000, "Game Begins in 2"),
        (2000, "Game Begins in 1"), (3000, "GO!")],
       (3500, none, true)) := by
  decide

/-- C9 counterexample: SpaceRace's `restartGame` does not reset the entity
collections — after restarting `staleRaceState` the AI list still holds the
stale, eliminated racer, which is not an initial spawn state (initialization
always creates racers with `eliminated := false`). -/
theorem restartGame_keeps_stale_entities :
    (SpaceRace.restartGame SpaceRace.staleRaceState).aiRacers = [SpaceRace.staleRacer]
    ∧ SpaceRace.staleRacer.eliminated = true := by
  decide

/-- C9 (amended): SpaceJump's `restartGame` resets score to 0, the game-over
flag to false, every entity collection to empty and recenters the player;
SpaceRace's `restartGame` resets score, game-over, winner, play state, game
time and countdown to their initial values but leaves the entity refs
(player, AI racers, blocks) untouched — they are re-created by the
initialization effect on the next start. -/
theorem restart_resets (W : ℚ) (s : SpaceJump.JumpState) (r : SpaceRace.RaceState) :
    ((SpaceJump.restartGame W s).score = 0
      ∧ (SpaceJump.restartGame W s).gameOver = false
      ∧ (SpaceJump.restartGame W s).enemies = []
      ∧ (SpaceJump.restartGame W s).asteroids = []
      ∧ (SpaceJump.restartGame W s).coins = []
      ∧ (SpaceJump.restartGame W s).bullets = []
      ∧ (SpaceJump.restartGame W s).enemyBullets = []
      ∧ (SpaceJump.restartGame W s).player.x = W / 2 - SpaceJump.PLAYER_SIZE / 2)
    ∧ ((SpaceRace.restartGame r).score = 0
      ∧ (SpaceRace.restartGame r).gameOver = false
      ∧ (SpaceRace.restartGame r).winner = none
      ∧ (SpaceRace.restartGame r).isPlaying = false
      ∧ (SpaceRace.restartGame r).gameTime = 0
      ∧ (SpaceRace.restartGame r).countdown = none
      ∧ (SpaceRace.restartGame r).player = r.player
      ∧ (SpaceRace.restartGame r).aiRacers = r.aiRacers
      ∧ (SpaceRace.restartGame r).blocks = r.blocks) :=
  ⟨⟨rfl, rfl, rfl, rfl, rfl, rfl, rfl, rfl⟩,
   rfl, rfl, rfl, rfl, rfl, rfl, rfl, rfl, rfl⟩

/-- C1 (code bug): in `checkCollisions` on `bugState`, bullet 1 overlaps
enemy 1 — it is a consumed projectile — yet it survives the step, while
bullet 2, which overlaps no enemy, is removed instead: the code erases by
`bulletIdx`, an index into the original array, from the already-filtered
current bullet list, so after bullet 0's removal the erasure for bullet 1
deletes bullet 2.  Both hit enemies are still decremented by exactly 1. -/
theorem checkCollisions_removes_wrong_bullet :
    SpaceJump.checkCollision SpaceJump.bulletB SpaceJump.enemyB.toObj = true
    ∧ (∀ e ∈ SpaceJump.bugState.enemies,
        SpaceJump.checkCollision SpaceJump.bulletC e.toObj = false)
    ∧ (SpaceJump.checkCollisions SpaceJump.bugState).bullets = [SpaceJump.bulletB]
    ∧ (SpaceJump.checkCollisions SpaceJump.bugState).enemies =
        [{ SpaceJump.enemyA with health := 1 }, { SpaceJump.enemyB with health := 1 }] := by
  with_unfolding_all decide

/-- C2 counterexample: `updateGame` does not run the spawner first.  On
`orderState` the claimed stage order (spawn, then update all positions, then
detect collisions) yields a different state than the code: the code spawns
last, so the new enemy and asteroid still sit at `y = 0`, while spawn-first
would have moved them by one step already. -/
theorem updateGame_not_spawner_first :
    SpaceJump.updateGame 1000 500 2000 0 0 0 SpaceJump.orderState ≠
      SpaceJump.checkCollisions (SpaceJump.updateAllPositions 1000 500 2000
        (SpaceJump.spawnObjects 1000 2000 0 0 0 SpaceJump.orderState)) := by
  with_unfolding_all decide

/-- C2 (amended): in each SpaceJump frame the stages run in the order: all
six position updates, then collision detection, then the spawner — the
spawner runs last, not first.  Collision detection operates on the
post-update positions of the same frame and never moves an entity: it leaves
the player, the asteroids and the enemy bullets unchanged, filters the coins,
and only removes (never repositions) enemies and player bullets. -/
theorem updateGame_stage_order :
    (∀ (W H : ℚ) (now : Int) (rE rA rC : ℚ) (s : SpaceJump.JumpState),
        SpaceJump.updateGame W H now rE rA rC s =
          SpaceJump.spawnObjects W now rE rA rC
            (SpaceJump.checkCollisions (SpaceJump.updateAllPositions W H now s)))
    ∧ (∀ s : SpaceJump.JumpState,
        (SpaceJump.checkCollisions s).player = s.player
        ∧ (SpaceJump.checkCollisions s).asteroids = s.asteroids
        ∧ (SpaceJump.checkCollisions s).enemyBullets = s.enemyBullets
        ∧ (SpaceJump.checkCollisions s).coins =
            s.coins.filter (fun c => !SpaceJump.checkCollision s.player c)
        ∧ (((SpaceJump.checkCollisions s).enemies.map (fun e => (e.x, e.y))).Sublist
            (s.enemies.map (fun e => (e.x, e.y))))
        ∧ ((SpaceJump.checkCollisions s).bullets.Sublist s.bullets)) :=
  ⟨fun _ _ _ _ _ _ _ => rfl,
   fun s =>
     ⟨SpaceJump.checkCollisions_player s, SpaceJump.checkCollisions_asteroids s,
      SpaceJump.checkCollisions_enemyBullets s, SpaceJump.checkCollisions_coins s,
      SpaceJump.checkCollisions_enemies_pos_sublist s,
      SpaceJump.checkCollisions_bullets_sublist s⟩⟩

/-- C8 counterexample: on `coinKillState` the player overlaps exactly one
coin, yet the score after `checkCollisions` is 4, not the prior score plus 1
— the same call also awards the kill increment 3 for the enemy destroyed by
a bullet in the same frame. -/
theorem checkCollisions_score_exceeds_coin_increment :
    (SpaceJump.checkCollisions SpaceJump.coinKillState).score = 4
    ∧ SpaceJump.coinKillState.score = 0
    ∧ SpaceJump.coinKillState.coins.countP
        (fun c => SpaceJump.checkCollision SpaceJump.coinKillState.player c) = 1 := by
  with_unfolding_all decide

/-- C8 (amended): in a frame in which no player projectile overlaps any
enemy, the score after `checkCollisions` is the prior score plus exactly 1
per coin the player overlaps (otherwise the kill increments of 3 are added on
top), and every overlapped coin is absent from the coin collection
afterwards. -/
theorem checkCollisions_coin_scoring (s : SpaceJump.JumpState)
    (h : ∀ b ∈ s.bullets, ∀ e ∈ s.enemies, SpaceJump.checkCollision b e.toObj = false) :
    (SpaceJump.checkCollisions s).score =
      s.score + (s.coins.countP (fun c => SpaceJump.checkCollision s.player c) : Int)
    ∧ ∀ c ∈ s.coins, SpaceJump.checkCollision s.player c = true →
        c ∉ (SpaceJump.checkCollisions s).coins := by
  constructor
  · show (SpaceJump.checkCollisions s).score = _
    simp only [SpaceJump.checkCollisions]
    split
    · rw [SpaceJump.bulletStage_no_collision _ (by exact h)]
      simp [SpaceJump.collectCoins_snd]
    · rw [SpaceJump.bulletStage_no_collision _ (by exact h)]
      simp [SpaceJump.collectCoins_snd]
  · intro c hc hcol hmem
    rw [SpaceJump.checkCollisions_coins s] at hmem
    rcases List.mem_filter.mp hmem with ⟨_, hpred⟩
    simp [hcol] at hpred

/-- C8 witness: on `coinOnlyState` (no bullets, one overlapped coin) the
amended claim's conclusion holds concretely. -/
theorem checkCollisions_coin_scoring_witness :
    (SpaceJump.checkCollisions SpaceJump.coinOnlyState).score =
      SpaceJump.coinOnlyState.score +
        (SpaceJump.coinOnlyState.coins.countP
          (fun c => SpaceJump.checkCollision SpaceJump.coinOnlyState.player c) : Int)
    ∧ ∀ c ∈ SpaceJump.coinOnlyState.coins,
        SpaceJump.checkCollision SpaceJump.coinOnlyState.player c = true →
        c ∉ (SpaceJump.checkCollisions SpaceJump.coinOnlyState).coins :=
  checkCollisions_coin_scoring SpaceJump.coinOnlyState (by with_unfolding_all decide)

/-- C10: after every per-frame player update the player stays inside the
playable area — in SpaceJump the clamp keeps x in [0, GAME_WIDTH − size]
whenever the player fits the canvas; in SpaceRace the clamp keeps x in
[0, GAME_WIDTH − size] and y in [0, RACE_DISTANCE − size] for a live racer,
and an eliminated racer does not move, so in-bounds positions are preserved
for every sampled input state. -/
theorem player_stays_in_bounds :
    (∀ (W : ℚ) (now : Int) (s : SpaceJump.JumpState), s.player.size ≤ W →
        0 ≤ (SpaceJump.updatePlayer W now s).player.x
        ∧ (SpaceJump.updatePlayer W now s).player.x ≤ W - s.player.size)
    ∧ (∀ (W D dt : ℚ) (keys : SpaceRace.Keys) (p : SpaceRace.Racer),
        p.size ≤ W → p.size ≤ D →
        0 ≤ p.x → p.x ≤ W - p.size → 0 ≤ p.y → p.y ≤ D - p.size →
        0 ≤ (SpaceRace.updatePlayer W D dt keys p).x
        ∧ (SpaceRace.updatePlayer W D dt keys p).x ≤ W - p.size
        ∧ 0 ≤ (SpaceRace.updatePlayer W D dt keys p).y
        ∧ (SpaceRace.updatePlayer W D dt keys p).y ≤ D - p.size) :=
  ⟨fun W now s hW => SpaceJump.updatePlayer_x_bounds W now s hW,
   fun W D dt keys p hW hD hx0 hx1 hy0 hy1 =>
     SpaceRace.updatePlayer_bounds W D dt keys p hW hD hx0 hx1 hy0 hy1⟩

/-- C10 witness: the bounds hold concretely for `orderState` on a
1000-wide canvas and for `staleRacer` on an 800-wide, 3000-long track. -/
theorem player_stays_in_bounds_witness :
    (0 ≤ (SpaceJump.updatePlayer 1000 0 SpaceJump.orderState).player.x
     ∧ (SpaceJump.updatePlayer 1000 0 SpaceJump.orderState).player.x ≤
         1000 - SpaceJump.orderState.player.size)
    ∧ (0 ≤ (SpaceRace.updatePlayer 800 3000 0 ⟨true, false, false, false, false⟩
          SpaceRace.staleRacer).x
       ∧ (SpaceRace.updatePlayer 800 3000 0 ⟨true, false, false, false, false⟩
          SpaceRace.staleRacer).x ≤ 800 - SpaceRace.staleRacer.size
       ∧ 0 ≤ (SpaceRace.updatePlayer 800 3000 0 ⟨true, false, false, false, false⟩
          SpaceRace.staleRacer).y
       ∧ (SpaceRace.updatePlayer 800 3000 0 ⟨true, false, false, false, false⟩
          SpaceRace.staleRacer).y ≤ 3000 - SpaceRace.staleRacer.size) :=
  ⟨player_stays_in_bounds.1 1000 0 SpaceJump.orderState (by with_unfolding_all decide),
   player_stays_in_bounds.2 800 3000 0 ⟨true, false, false, false, false⟩
     SpaceRace.staleRacer (by with_unfolding_all decide) (by with_unfolding_all decide)
     (by with_unfolding_all decide) (by with_unfolding_all decide)
     (by with_unfolding_all decide) (by with_unfolding_all decide)⟩

/-- C3: `checkWinCondition` ranks the non-eliminated racers ascending by y
with ties resolved to original insertion order (player first, then AI racers
in index order — the ranked list is a permutation of the live entrants,
sorted weakly by y, with equal-y pairs in insertion order); when the leading
racer's y is at or below the finish threshold the game finishes recording
that leader as winner, with score 6 if the player wins, max(1, 6 − the
player's rank position) if the player is ranked but did not win, and 0 if the
player is absent; when no live racer remains it finishes with "No one" and
score 0; otherwise the race continues. -/
theorem checkWinCondition_spec (player : Option SpaceRace.Racer)
    (ais : List SpaceRace.Racer) :
    (SpaceRace.rankedRacers player ais).Perm (SpaceRace.entrants player ais)
    ∧ (SpaceRace.rankedRacers player ais).Pairwise (fun a b => a.racer.y ≤ b.racer.y)
    ∧ (SpaceRace.rankedRacers player ais).Pairwise
        (fun a b => a.racer.y = b.racer.y → a.id.order < b.id.order)
    ∧ (SpaceRace.rankedRacers player ais = [] →
        SpaceRace.checkWinCondition player ais = SpaceRace.WinOutcome.finished "No one" 0)
    ∧ (∀ leader rest, SpaceRace.rankedRacers player ais = leader :: rest →
        (leader.racer.y ≤ SpaceRace.FINISH_LINE_Y →
          (leader.id = SpaceRace.RacerId.player →
            SpaceRace.checkWinCondition player ais = SpaceRace.WinOutcome.finished "You" 6)
          ∧ (∀ idx, leader.id = SpaceRace.RacerId.ai idx →
              SpaceRace.checkWinCondition player ais =
                SpaceRace.WinOutcome.finished
                  (((ais.get? idx).map SpaceRace.Racer.name).getD "")
                  (match (leader :: rest).findIdx?
                      (fun e => decide (e.id = SpaceRace.RacerId.player)) with
                   | some pos => max 1 (6 - (pos : Int))
                   | none => 0)))
        ∧ (SpaceRace.FINISH_LINE_Y < leader.racer.y →
            SpaceRace.checkWinCondition player ais = SpaceRace.WinOutcome.continueRace)) := by
  refine ⟨SpaceRace.sortBy_perm _ _, SpaceRace.sortBy_sorted _ _,
    SpaceRace.sortBy_stable
      ((SpaceRace.entrants_pairwise player ais).imp (fun h => fun _ => h)), ?_, ?_⟩
  · intro hnil
    unfold SpaceRace.checkWinCondition
    rw [hnil]
  · intro leader rest hEq
    constructor
    · intro hFin
      constructor
      · intro hid
        unfold SpaceRace.checkWinCondition
        rw [hEq]
        simp only [if_pos hFin, hid]
      · intro idx hid
        unfold SpaceRace.checkWinCondition
        rw [hEq]
        simp only [if_pos hFin, hid]
    · intro hGt
      unfold SpaceRace.checkWinCondition
      rw [hEq]
      simp only [if_neg (not_le.mpr hGt)]

/-- C3 witness: with the live player at y = 50 (past the finish threshold
100) and one live AI racer at y = 200, `checkWinCondition` finishes with
winner "You" and score 6. -/
theorem checkWinCondition_spec_witness :
    SpaceRace.checkWinCondition (some SpaceRace.finishPlayer) [SpaceRace.chasingAI] =
      SpaceRace.WinOutcome.finished "You" 6 :=
  (((checkWinCondition_spec (some SpaceRace.finishPlayer) [SpaceRace.chasingAI]).2.2.2.2
      ⟨SpaceRace.finishPlayer, SpaceRace.RacerId.player⟩
      [⟨SpaceRace.chasingAI, SpaceRace.RacerId.ai 0⟩]
      (by norm_num [SpaceRace.rankedRacers, SpaceRace.entrants, SpaceRace.sortBy,
        SpaceRace.insertBy, SpaceRace.finishPlayer, SpaceRace.chasingAI,
        List.enum, List.enumFrom, List.filterMap])).1
      (by norm_num [SpaceRace.finishPlayer, SpaceRace.FINISH_LINE_Y])).1 rfl

/-- C6 counterexample: with game over set and a live on-screen player racer,
one SpaceRace frame callback draws only the background rectangle — it does
not perform the full render step and the racer's sprite is not drawn. -/
theorem raceFrame_gameOver_backdrop_only :
    (SpaceRace.gameLoopFrame 800 600 3000 5000 0 ⟨false, false, false, false, false⟩
        (fun _ => ⟨0, 0, 0⟩) (fun _ => 0) [] [] 0 0 false false
        SpaceRace.frozenRaceState).2.2 = [DrawOp.fillRect 0 0 800 600]
    ∧ SpaceRace.frozenRaceState.gameOver = true
    ∧ SpaceRace.frozenRaceState.player = some SpaceRace.finishPlayer
    ∧ SpaceRace.finishPlayer.eliminated = false
    ∧ DrawOp.fillText SpaceRace.finishPlayer.sprite SpaceRace.finishPlayer.x
        (SpaceRace.finishPlayer.y - 0 + SpaceRace.finishPlayer.size) ∉
      (SpaceRace.gameLoopFrame 800 600 3000 5000 0 ⟨false, false, false, false, false⟩
        (fun _ => ⟨0, 0, 0⟩) (fun _ => 0) [] [] 0 0 false false
        SpaceRace.frozenRaceState).2.2 := by
  refine ⟨?_, rfl, rfl, rfl, ?_⟩
  · simp [SpaceRace.gameLoopFrame, SpaceRace.frozenRaceState]
  · simp [SpaceRace.gameLoopFrame, SpaceRace.frozenRaceState, SpaceRace.finishPlayer]

/-- C6 (amended): once game over is set, SpaceJump's frame callback performs
no state update and still performs the full render step, drawing every live
entity at its frozen position; SpaceRace's frame callback also performs no
update but paints only the background rectangle instead of the full render,
drawing no entities. -/
theorem gameOver_frame_behavior :
    (∀ (W H : ℚ) (now : Int) (rE rA rC : ℚ) (stars : List SpaceJump.Star)
        (s : SpaceJump.JumpState), s.gameOver = true →
        (SpaceJump.gameLoopFrame W H now rE rA rC stars s).1 = s
        ∧ (SpaceJump.gameLoopFrame W H now rE rA rC stars s).2 =
            SpaceJump.renderGame W H stars s
        ∧ DrawOp.fillText "🚀" s.player.x (s.player.y + s.player.size) ∈
            SpaceJump.renderGame W H stars s
        ∧ (∀ e ∈ s.enemies, DrawOp.fillText "👾" e.x (e.y + e.size) ∈
            SpaceJump.renderGame W H stars s)
        ∧ (∀ a ∈ s.asteroids, DrawOp.fillText "🌑" a.x (a.y + a.size) ∈
            SpaceJump.renderGame W H stars s)
        ∧ (∀ c ∈ s.coins, DrawOp.fillText "💰" c.x (c.y + c.size) ∈
            SpaceJump.renderGame W H stars s)
        ∧ (∀ b ∈ s.bullets, DrawOp.fillText "•" b.x b.y ∈
            SpaceJump.renderGame W H stars s)
        ∧ (∀ b ∈ s.enemyBullets, DrawOp.fillText "•" b.x b.y ∈
            SpaceJump.renderGame W H stars s))
    ∧ (∀ (W H D timestamp dt : ℚ) (keys : SpaceRace.Keys)
        (rands : Nat → SpaceRace.AIRand) (measure : String → ℚ)
        (stars : List SpaceRace.Star) (planets : List SpaceRace.Planet)
        (cameraY boostStartTime : ℚ) (boostActive boostCooldown : Bool)
        (s : SpaceRace.RaceState), s.gameOver = true →
        SpaceRace.gameLoopFrame W H D timestamp dt keys rands measure stars planets
            cameraY boostStartTime boostActive boostCooldown s =
          (s, cameraY, [DrawOp.fillRect 0 0 W H])) := by
  constructor
  · intro W H now rE rA rC stars s hgo
    refine ⟨by simp [SpaceJump.gameLoopFrame, hgo], by simp [SpaceJump.gameLoopFrame, hgo],
            ?_, ?_, ?_, ?_, ?_, ?_⟩
    · simp [SpaceJump.renderGame]
    · intro e he
      simp only [SpaceJump.renderGame, List.mem_append, List.mem_map]
      exact Or.inl (Or.inl (Or.inl (Or.inl (Or.inr ⟨e, he, rfl⟩))))
    · intro a ha
      simp only [SpaceJump.renderGame, List.mem_append, List.mem_map]
      exact Or.inl (Or.inl (Or.inl (Or.inr ⟨a, ha, rfl⟩)))
    · intro c hc
      simp only [SpaceJump.renderGame, List.mem_append, List.mem_map]
      exact Or.inl (Or.inl (Or.inr ⟨c, hc, rfl⟩))
    · intro b hb
      simp only [SpaceJump.renderGame, List.mem_append, List.mem_map]
      exact Or.inl (Or.inr ⟨b, hb, rfl⟩)
    · intro b hb
      simp only [SpaceJump.renderGame, List.mem_append, List.mem_map]
      exact Or.inr ⟨b, hb, rfl⟩
  · intro W H D timestamp dt keys rands measure stars planets cameraY boostStartTime
      boostActive boostCooldown s hgo
    simp [SpaceRace.gameLoopFrame, hgo]

/-- C6 witness: concretely, the frozen SpaceJump frame keeps its state and
draws its live enemy, while the frozen SpaceRace frame reduces to the
background-only draw. -/
theorem gameOver_frame_behavior_witness :
    ((SpaceJump.gameLoopFrame 1000 500 0 0 0 0 [] SpaceJump.frozenJumpState).1 =
        SpaceJump.frozenJumpState
      ∧ DrawOp.fillText "👾" (50 : ℚ) ((60 : ℚ) + 40) ∈
          SpaceJump.renderGame 1000 500 [] SpaceJump.frozenJumpState)
    ∧ SpaceRace.gameLoopFrame 800 600 3000 0 0 ⟨false, false, false, false, false⟩
        (fun _ => ⟨0, 0, 0⟩) (fun _ => 0) [] [] 0 0 false false
        SpaceRace.frozenRaceState =
      (SpaceRace.frozenRaceState, 0, [DrawOp.fillRect 0 0 800 600]) :=
  ⟨⟨(gameOver_frame_behavior.1 1000 500 0 0 0 0 [] SpaceJump.frozenJumpState rfl).1,
    (gameOver_frame_behavior.1 1000 500 0 0 0 0 [] SpaceJump.frozenJumpState rfl).2.2.2.1
      ⟨50, 60, 40, 2, 2, 0⟩ (List.mem_cons_self _ _)⟩,
   gameOver_frame_behavior.2 800 600 3000 0 0 ⟨false, false, false, false, false⟩
     (fun _ => ⟨0, 0, 0⟩) (fun _ => 0) [] [] 0 0 false false
     SpaceRace.frozenRaceState rfl⟩

end SpaceExp
